import Mathlib

/-!
Verification of the task-orchestration core of the coding-agent template.

The TypeScript sources are shallowly embedded: every external call
(sandbox command execution, provisioning, the generative naming service,
the stop flag stored in the task table) is an input of the embedded
function, and each function returns its result together with the list of
observable actions (log writes, status writes, registry operations) it
performs, in program order.
-/

namespace CodingAgent

/-! ## JavaScript string helpers

Truthiness of `s.trim()` in JS is "some non-whitespace character exists";
`jsTrim` mirrors `String.prototype.trim`, and `strContains` mirrors
`String.prototype.includes`. -/

def jsTrimNonempty (s : String) : Bool :=
  s.data.any (fun c => ¬ c.isWhitespace)

def jsTrim (s : String) : String :=
  String.mk (((s.data.dropWhile Char.isWhitespace).reverse.dropWhile Char.isWhitespace).reverse)

def strContains (hay needle : String) : Bool :=
  hay.data.tails.any (fun t => List.isPrefixOf needle.data t)

/-- `optStr o` is how a JS template literal renders a possibly-undefined string. -/
def optStr (o : Option String) : String :=
  match o with
  | none => "undefined"
  | some s => s

def replaceAllAux (pat rep : List Char) : Nat → List Char → List Char
  | 0, s => s
  | _ + 1, [] => []
  | fuel + 1, c :: rest =>
      if List.isPrefixOf pat (c :: rest) then
        rep ++ replaceAllAux pat rep fuel ((c :: rest).drop pat.length)
      else
        c :: replaceAllAux pat rep fuel rest

/-- Replace every occurrence of `pat` in `s` by `rep` (JS `replaceAll`). -/
def replaceAll (s pat rep : String) : String :=
  if pat = "" then s else String.mk (replaceAllAux pat.data rep.data s.data.length s.data)

/-! ## Result of `runCommandInSandbox`

The sandbox command runner is an external collaborator
(`src/lib/sandbox/commands`); each call's result is an input of the
embedding.  `output` / `error` are `Option` because the JS fields may be
`undefined`. -/

structure CommandResult where
  success : Bool
  output : Option String
  error : Option String
  exitCode : Int
deriving DecidableEq

/-- Truthiness of `result.output?.trim()` in the sources. -/
def outputNonblank (r : CommandResult) : Bool :=
  match r.output with
  | none => false
  | some s => jsTrimNonempty s

/-! ## Log entries and task status (src/lib/db/schema.ts) -/

inductive LogType
  | info
  | command
  | error
  | success
deriving DecidableEq

structure LogEntry where
  type : LogType
  message : String
deriving DecidableEq

inductive TaskStatus
  | pending
  | processing
  | completed
  | error
  | stopped
deriving DecidableEq

/-- Package managers recognised by the dependency installer. -/
inductive PM
  | pnpm
  | yarn
  | npm
deriving DecidableEq

/-- Observable actions of the orchestration code, in program order:
log appends and status/progress/branch writes performed through the task
logger and the db, registry operations, cancellation-checkpoint reads,
and the provisioning request itself. -/
inductive Act
  | log (e : LogEntry)
  | setStatus (s : TaskStatus) (msg : Option String)
  | setProgress (p : Nat) (msg : String)
  | dbUpdate (sandboxUrl : Option String) (branch : Option String)
  | register (taskId : String)
  | unregister (taskId : String)
  | checkpoint (observedStopped : Bool)
  | provisionRequest
  | installAttempt (pm : PM)
  | gitRun (cmd : String)
  | shutdownCall
deriving DecidableEq

def logInfo (m : String) : Act := Act.log ⟨LogType.info, m⟩

def logCmd (m : String) : Act := Act.log ⟨LogType.command, m⟩

def logErr (m : String) : Act := Act.log ⟨LogType.error, m⟩

def logOk (m : String) : Act := Act.log ⟨LogType.success, m⟩

/-- Modelled from the spec: the redaction step of `src/lib/utils/logging`
(not among the provided sources) replaces any known secret value with a
placeholder. -/
def redactSensitiveInfo (secrets : List String) (s : String) : String :=
  secrets.foldl (fun acc sec => replaceAll acc sec "[REDACTED]") s

/-! ## URL model (the WHATWG `URL` class used by `createAuthenticatedRepoUrl`)

`new URL` is an external collaborator.  The model covers http(s) URLs
without userinfo, port, query or fragment, which is enough for the
repository URLs the function receives.  Per WHATWG parsing, the host is
lowercased and an empty path serialises as "/". -/

structure Url where
  scheme : String
  username : String
  password : String
  host : String
  path : String
deriving DecidableEq

def splitScheme : List Char → Option (List Char × List Char)
  | [] => none
  | ':' :: '/' :: '/' :: rest => some ([], rest)
  | c :: rest => (splitScheme rest).map (fun p => (c :: p.1, p.2))

def splitHost : List Char → List Char × List Char
  | [] => ([], [])
  | '/' :: rest => ([], '/' :: rest)
  | c :: rest => let p := splitHost rest; (c :: p.1, p.2)

def parseUrl (s : String) : Option Url :=
  match splitScheme s.data with
  | none => none
  | some (schemeCs, rest) =>
    let scheme := String.mk schemeCs
    if scheme = "http" ∨ scheme = "https" then
      let hp := splitHost rest
      if hp.1 = [] then none
      else
        some { scheme := scheme
               username := ""
               password := ""
               host := String.mk (hp.1.map Char.toLower)
               path := if hp.2 = [] then "/" else String.mk hp.2 }
    else none

def urlToString (u : Url) : String :=
  u.scheme ++ "://" ++
    (if u.username = "" then "" else u.username ++ ":" ++ u.password ++ "@") ++
    u.host ++ u.path

/-- `createAuthenticatedRepoUrl` (src/lib/sandbox/config): inject the
GitHub token into the URL when one is configured, the URL parses and the
host is github.com; otherwise the parse failure or missing token returns
the input, and a parsed non-GitHub URL is re-serialised. -/
def createAuthenticatedRepoUrl (githubToken : Option String) (repoUrl : String) : String :=
  match githubToken with
  | none => repoUrl
  | some tok =>
    match parseUrl repoUrl with
    | none => repoUrl
    | some url =>
      let url' :=
        if url.host = "github.com" then
          { url with username := tok, password := "x-oauth-basic" }
        else url
      urlToString url'

/-! ## Sandbox registry (src/lib/sandbox/sandbox-registry)

A JS `Map` keeps insertion order; it is modelled as an association list,
so the "first" entry returned by `entries().next()` is the list head. -/

abbrev Registry := List (String × Nat)

def registerSandbox (r : Registry) (taskId : String) (sb : Nat) : Registry :=
  if r.any (fun p => p.1 = taskId) then
    r.map (fun p => if p.1 = taskId then (taskId, sb) else p)
  else
    r ++ [(taskId, sb)]

def unregisterSandbox (r : Registry) (taskId : String) : Registry :=
  r.filter (fun p => p.1 ≠ taskId)

def lookupSandbox (r : Registry) (taskId : String) : Option Nat :=
  (r.find? (fun p => p.1 = taskId)).map (fun p => p.2)

structure KillResult where
  success : Bool
  error : Option String
  registry : Registry
deriving DecidableEq

def killSandbox (r : Registry) (taskId : String) : KillResult :=
  match r.find? (fun p => p.1 = taskId) with
  | some _ =>
      { success := true, error := none, registry := r.filter (fun p => p.1 ≠ taskId) }
  | none =>
      if r.length > 0 then
        match r with
        | [] => { success := false, error := some "No active sandbox found for this task", registry := r }
        | (oldTaskId, _) :: _ =>
            { success := true
              error := some ("Killed sandbox for task " ++ oldTaskId ++ " (fallback)")
              registry := r.filter (fun p => p.1 ≠ oldTaskId) }
      else
        { success := false, error := some "No active sandbox found for this task", registry := r }

/-! ## Dependency installer (src/lib/sandbox/package-manager) -/

/-- Truthiness of a possibly-undefined JS string. -/
def strTruthy (o : Option String) : Bool :=
  match o with
  | none => false
  | some s => s ≠ ""

/-- `a || b` on a possibly-undefined JS string. -/
def jsOr (o : Option String) (d : String) : String :=
  match o with
  | none => d
  | some s => if s = "" then d else s

def pmStr : PM → String
  | PM.pnpm => "pnpm"
  | PM.yarn => "yarn"
  | PM.npm => "npm"

/-- Lock files found by the `test -f` probes of `detectPackageManager`. -/
structure LockFiles where
  pnpmLock : Bool
  yarnLock : Bool
  npmLock : Bool
deriving DecidableEq

/-- `detectPackageManager`: lock-file probes in priority order
pnpm-lock.yaml, yarn.lock, package-lock.json, defaulting to npm. -/
def detectPackageManager (fs : LockFiles) : PM × List Act :=
  if fs.pnpmLock then (PM.pnpm, [logInfo "Detected pnpm (pnpm-lock.yaml found)"])
  else if fs.yarnLock then (PM.yarn, [logInfo "Detected yarn (yarn.lock found)"])
  else if fs.npmLock then (PM.npm, [logInfo "Detected npm (package-lock.json found)"])
  else (PM.npm, [logInfo "No lock file found, defaulting to npm"])

/-- Outcome of `Promise.race([runCommandInSandbox ..., timeout])` inside
`installDependencies`: either the install command completed, or the
3-minute timer won.  The timer's resolution carries `timedOut: true`,
a typed outcome distinct from an ordinary command failure. -/
inductive InstallRaceOutcome
  | completed (r : CommandResult)
  | timedOut
deriving DecidableEq

structure InstallResult where
  success : Bool
  error : Option String
deriving DecidableEq

/-- `installDependencies`: one bounded install attempt with `pm`.
`configStoreOk` is the result of the pnpm store-dir configuration
command.  The `Act.installAttempt` marker records that the function was
invoked. -/
def installDependencies (pm : PM) (configStoreOk : Bool) (race : InstallRaceOutcome) :
    InstallResult × List Act :=
  let n := pmStr pm
  let preActs : List Act :=
    match pm with
    | PM.pnpm =>
        (if ¬ configStoreOk then [logErr "Failed to configure pnpm store directory"]
         else [logInfo "Configured pnpm to use /tmp/pnpm-store"]) ++
        [logInfo "Attempting pnpm install with 3-minute timeout using /tmp/pnpm-store..."]
    | PM.yarn => [logInfo "Attempting yarn install with 3-minute timeout..."]
    | PM.npm => [logInfo "Attempting npm install with 3-minute timeout..."]
  let acts0 := Act.installAttempt pm :: preActs
  match race with
  | InstallRaceOutcome.timedOut =>
      ({ success := false, error := some (n ++ " install timed out after 3 minutes") },
        acts0 ++ [logErr (n ++ " install timed out")])
  | InstallRaceOutcome.completed r =>
      if r.success then
        ({ success := true, error := none },
          acts0 ++ [logInfo ("Node.js dependencies installed with " ++ n)])
      else
        ({ success := false, error := r.error },
          acts0 ++ [logErr (n ++ " install failed"),
                    logErr (n ++ " exit code: " ++ toString r.exitCode)] ++
            (if strTruthy r.output then [logErr (n ++ " stdout: " ++ optStr r.output)] else []) ++
            (if strTruthy r.error then [logErr (n ++ " stderr: " ++ optStr r.error)] else []))

/-! ## Git publisher (src/lib/sandbox/git) -/

structure PushEnv where
  statusRes : CommandResult
  addRes : CommandResult
  commitRes : CommandResult
  pushRes : CommandResult
deriving DecidableEq

/-- Absent `pushFailed` in the JS object is modelled as `false`. -/
structure PushResult where
  success : Bool
  pushFailed : Bool
deriving DecidableEq

/-- `pushChangesToBranch`: inspect the working tree; commit and push only
when dirty; a push failure still reports `success = true` together with
`pushFailed = true`.  The surrounding try/catch never fires in the model
because the command runner is total. -/
def pushChangesToBranch (branchName commitMessage : String) (env : PushEnv) :
    PushResult × List Act :=
  let acts0 := [Act.gitRun "status --porcelain"]
  if ¬ outputNonblank env.statusRes then
    ({ success := true, pushFailed := false }, acts0 ++ [logInfo "No changes to commit"])
  else
    let acts1 := acts0 ++ [logInfo "Changes detected, committing...", Act.gitRun "add ."]
    if ¬ env.addRes.success then
      ({ success := false, pushFailed := false },
        acts1 ++ [logInfo ("Failed to add changes: " ++ optStr env.addRes.error)])
    else
      let acts2 := acts1 ++ [Act.gitRun ("commit -m " ++ commitMessage)]
      if ¬ env.commitRes.success then
        ({ success := false, pushFailed := false },
          acts2 ++ [logInfo ("Failed to commit changes: " ++ optStr env.commitRes.error)])
      else
        let acts3 := acts2 ++ [logInfo "Changes committed successfully",
                               Act.gitRun ("push origin " ++ branchName)]
        if env.pushRes.success then
          ({ success := true, pushFailed := false },
            acts3 ++ [logInfo ("Successfully pushed changes to branch: " ++ branchName)])
        else
          let errorMsg := jsOr env.pushRes.error "Unknown error"
          let permNote : List Act :=
            if strContains errorMsg "Permission" ∨ strContains errorMsg "access_denied" ∨
                strContains errorMsg "403" then
              [logInfo "Note: This appears to be a permission issue. The changes were committed locally but could not be pushed.",
               logInfo "You may need to check repository permissions or authentication tokens."]
            else []
          ({ success := true, pushFailed := true },
            acts3 ++ [logInfo ("Failed to push to branch " ++ branchName ++ ": " ++ errorMsg)] ++
              permNote)

structure ShutdownResult where
  success : Bool
  error : Option String
deriving DecidableEq

/-- `shutdownSandbox`: best-effort pkill commands, then always
`{ success: true }` (the catch is unreachable). -/
def shutdownSandbox : ShutdownResult × List Act :=
  ({ success := true, error := none }, [Act.shutdownCall])

/-! ## Claude agent executor (src/lib/sandbox/agents/claude.ts) -/

structure AgentExecutionResult where
  success : Bool
  output : Option String
  agentResponse : Option String
  cliName : Option String
  changesDetected : Bool
  error : Option String
deriving DecidableEq

/-- External inputs of one `executeClaudeInSandbox` run: the configured
API key, the set of known secret values the redaction step removes, and
the result of every sandbox command the function may issue. -/
structure ClaudeEnv where
  anthropicApiKey : Option String
  secrets : List String
  cliCheck : CommandResult
  versionRes : CommandResult
  helpRes : CommandResult
  npmInstallClaude : CommandResult
  configFileRes : CommandResult
  verifyAuthRes : CommandResult
  verifyCheck : CommandResult
  execRes : CommandResult
  gitStatusCheck : CommandResult
  findRes : CommandResult
  lsRes : CommandResult

/-- `runAndLogCommand` of claude.ts.  The function logs each entry twice
(`await logger.command(...)` followed by `if (logger) await
logger.command(...)`, and likewise for output and error); the null-result
fallback is dead code under a total command runner. -/
def claudeRunAndLog (secrets : List String) (cmdStr : String) (r : CommandResult) : List Act :=
  let rc := redactSensitiveInfo secrets cmdStr
  [logCmd rc, logCmd rc] ++
    (if outputNonblank r then
       let ro := redactSensitiveInfo secrets (jsTrim (optStr r.output))
       [logInfo ro, logInfo ro]
     else []) ++
    (if ¬ r.success ∧ strTruthy r.error then
       let re := redactSensitiveInfo secrets (optStr r.error)
       [logErr re, logErr re]
     else [])

/-- `installClaudeCLI`: npm-install the CLI, then write the config file
and verify authentication when an API key is configured. -/
def installClaudeCLI (env : ClaudeEnv) : Bool × List Act :=
  let acts0 := [logInfo "Installing Claude CLI..."]
  if env.npmInstallClaude.success then
    let authActs : List Act :=
      match env.anthropicApiKey with
      | some _ =>
          [logInfo "Authenticating Claude CLI..."] ++
            (if env.configFileRes.success then [logInfo "Claude CLI config file created successfully"]
             else [logInfo "Warning: Failed to create Claude CLI config file"]) ++
            (if env.verifyAuthRes.success then [logInfo "Claude CLI authentication verified"]
             else [logInfo "Warning: Claude CLI authentication could not be verified"])
      | none => [logInfo "Warning: ANTHROPIC_API_KEY not found, Claude CLI may not work"]
    (true, acts0 ++ [logInfo "Claude CLI installed successfully"] ++ authActs)
  else
    (false, acts0 ++ [logInfo "Failed to install Claude CLI"])

def claudeDefaultModel : String := "claude-sonnet-4-5-20250929"

/-- `executeClaudeInSandbox`, transliterated branch by branch.  Note the
debug block near the end: it logs `Claude CLI error: ...` with the raw
`result.error`, without the redaction applied to the same value a few
lines earlier. -/
def executeClaudeInSandbox (env : ClaudeEnv) (instruction : String)
    (selectedModel : Option String) : AgentExecutionResult × List Act :=
  let acts0 := claudeRunAndLog env.secrets "which claude" env.cliCheck
  let acts1 := acts0 ++
    (if env.cliCheck.success then
       claudeRunAndLog env.secrets "claude --version" env.versionRes ++
         claudeRunAndLog env.secrets "claude --help" env.helpRes
     else [])
  let installPhase : Option (AgentExecutionResult × List Act) × List Act :=
    if ¬ env.cliCheck.success then
      let inst := installClaudeCLI env
      if ¬ inst.1 then
        (some ({ success := false, output := none, agentResponse := none,
                 cliName := some "claude", changesDetected := false,
                 error := some "Failed to install Claude CLI" }, acts1 ++ inst.2), [])
      else
        let verifyActs := claudeRunAndLog env.secrets "which claude" env.verifyCheck
        if ¬ env.verifyCheck.success then
          (some ({ success := false, output := none, agentResponse := none,
                   cliName := some "claude", changesDetected := false,
                   error := some "Claude CLI installation completed but CLI still not found" },
                 acts1 ++ inst.2 ++ verifyActs), [])
        else (none, inst.2 ++ verifyActs)
    else (none, [])
  match installPhase.1 with
  | some early => early
  | none =>
    let acts2 := acts1 ++ installPhase.2
    match env.anthropicApiKey with
    | none =>
        ({ success := false, output := none, agentResponse := none,
           cliName := some "claude", changesDetected := false,
           error := some "ANTHROPIC_API_KEY environment variable is required but not found" },
          acts2)
    | some apiKey =>
      let modelToUse := jsOr selectedModel claudeDefaultModel
      let acts3 := acts2 ++
        [logInfo ("Attempting to execute Claude CLI with model " ++ modelToUse ++
            " and instruction: " ++ String.mk (instruction.data.take 100) ++ "..."),
         logInfo "Executing Claude CLI with --dangerously-skip-permissions for automated file changes..."]
      let fullCommand :=
        "ANTHROPIC_API_KEY=\"" ++ apiKey ++ "\" claude --model \"" ++ modelToUse ++
          "\" --dangerously-skip-permissions --verbose \"" ++ instruction ++ "\""
      let redactedCommand := replaceAll fullCommand apiKey "[REDACTED]"
      let acts4 := acts3 ++ [logCmd redactedCommand, logCmd redactedCommand]
      let result := env.execRes
      let acts5 := acts4 ++
        (if outputNonblank result then
           let ro := redactSensitiveInfo env.secrets (jsTrim (optStr result.output))
           [logInfo ro, logInfo ro]
         else []) ++
        (if ¬ result.success ∧ strTruthy result.error then
           let re := redactSensitiveInfo env.secrets (optStr result.error)
           [logErr re, logErr re]
         else []) ++
        [logInfo ("Claude CLI exit code: " ++ toString result.exitCode)] ++
        (if strTruthy result.output then
           [logInfo ("Claude CLI output length: " ++ toString (optStr result.output).length ++
               " characters")]
         else []) ++
        (if strTruthy result.error then [logErr ("Claude CLI error: " ++ optStr result.error)]
         else [])
      let acts6 := acts5 ++ claudeRunAndLog env.secrets "git status --porcelain" env.gitStatusCheck
      let hasChanges := env.gitStatusCheck.success && outputNonblank env.gitStatusCheck
      if result.success ∨ result.exitCode = 0 then
        let acts7 := acts6 ++
          (if ¬ hasChanges then
             [logInfo "No changes detected. Checking if files exist..."] ++
               claudeRunAndLog env.secrets "find . -name README* -o -name readme*" env.findRes ++
               claudeRunAndLog env.secrets "ls -la" env.lsRes
           else [])
        ({ success := true
           output := some ("Claude CLI executed successfully" ++
             (if hasChanges then " (Changes detected)" else " (No changes made)"))
           agentResponse := some (jsOr result.output "No detailed response available")
           cliName := some "claude"
           changesDetected := hasChanges
           error := none }, acts7)
      else
        ({ success := false
           output := none
           agentResponse := result.output
           cliName := some "claude"
           changesDetected := hasChanges
           error := some ("Claude CLI failed (exit code " ++ toString result.exitCode ++ "): " ++
             jsOr result.error "No error message") }, acts6)

/-! ## Sandbox provisioner (src/lib/sandbox/creation)

`createSandbox` is embedded phase by phase.  Every throw inside the
function reaches its own outer catch, which logs `Error: <message>` and
returns `{ success: false, error }`; the embedding inlines that catch at
each throw site.  Cancellation checks run because `processTask` always
supplies `onCancellationCheck`; their results are the `cancel*` inputs. -/

structure SandboxResult where
  success : Bool
  cancelled : Bool
  domain : Option String
  branchName : Option String
  error : Option String
deriving DecidableEq

structure SbConfig where
  taskId : String
  repoUrl : String
  installDependencies : Bool
  preDeterminedBranchName : Option String
  existingBranchName : Option String
deriving DecidableEq

structure BranchEnv where
  checkoutExisting : CommandResult
  pullRes : CommandResult
  showRefLocal : CommandResult
  checkoutLocal : CommandResult
  lsRemote : CommandResult
  checkoutTrack : CommandResult
  createBranch : CommandResult
  fallbackName : String
  createFallback : CommandResult
  statusDbg : CommandResult
  branchDbg : CommandResult
  logDbg : CommandResult
deriving DecidableEq

structure SbEnv where
  cancel0 : Bool
  cancel1 : Bool
  cancel2 : Bool
  cancel3 : Bool
  envVarsValid : Bool
  envVarsError : String
  githubToken : Option String
  configJson : String
  provisionOk : Bool
  provisionTimeout : Bool
  provisionErrorMsg : String
  provisionHttpStatus : Option (Int × String)
  packageJson : Bool
  requirementsTxt : Bool
  locks : LockFiles
  pmOnPath : Bool
  globalInstallOk : Bool
  configStoreOk : Bool
  installPre : InstallRaceOutcome
  installMain : InstallRaceOutcome
  installFb : InstallRaceOutcome
  pipAvailable : Bool
  getPipOk : Bool
  aptOk : Bool
  pipUpgradeOk : Bool
  pipInstall : CommandResult
  flaskApp : Bool
  djangoManage : Bool
  domain : String
  gitRepo : Bool
  gitInitOk : Bool
  statusDebug : CommandResult
  branchDebug : CommandResult
  remoteDebug : CommandResult
  branch : BranchEnv
  secrets : List String

/-- `runAndLogCommand` of creation.ts: log the redacted command once,
then the redacted trimmed output and, on failure, the redacted error. -/
def creationRunAndLog (secrets : List String) (cmdStr : String) (r : CommandResult) : List Act :=
  [Act.gitRun cmdStr, logCmd (redactSensitiveInfo secrets cmdStr)] ++
    (if outputNonblank r then
       [logInfo (redactSensitiveInfo secrets (jsTrim (optStr r.output)))]
     else []) ++
    (if ¬ r.success ∧ strTruthy r.error then
       [logErr (redactSensitiveInfo secrets (optStr r.error))]
     else [])

def installWarning : Act :=
  logInfo "Warning: Failed to install Node.js dependencies, but continuing with sandbox setup"

/-- The Node.js install section of `createSandbox` (package.json found):
detect the manager, globally install pnpm/yarn when missing (with an
immediate npm attempt if that global install fails), run the detected
manager's install, observe the cancellation checkpoint, then retry once
with npm when the detected manager failed and was not already npm.
Returns its acts and whether the cancellation checkpoint fired.  No
install outcome influences anything outside the returned acts. -/
def nodeInstallPhase (env : SbEnv) : List Act × Bool :=
  let det := detectPackageManager env.locks
  let pm := det.1
  let acts1 := logInfo "package.json found, installing Node.js dependencies..." :: det.2
  let preActs : List Act :=
    match pm with
    | PM.pnpm =>
        if ¬ env.pmOnPath then
          [logInfo "Installing pnpm globally..."] ++
            (if ¬ env.globalInstallOk then
               [logErr "Failed to install pnpm globally, falling back to npm"] ++
                 (let r := installDependencies PM.npm env.configStoreOk env.installPre
                  r.2 ++ (if ¬ r.1.success then [installWarning] else []))
             else [logInfo "pnpm installed globally"])
        else []
    | PM.yarn =>
        if ¬ env.pmOnPath then
          [logInfo "Installing yarn globally..."] ++
            (if ¬ env.globalInstallOk then
               [logErr "Failed to install yarn globally, falling back to npm"] ++
                 (let r := installDependencies PM.npm env.configStoreOk env.installPre
                  r.2 ++ (if ¬ r.1.success then [installWarning] else []))
             else [logInfo "yarn installed globally"])
        else []
    | PM.npm => []
  let acts2 := acts1 ++ preActs ++ [Act.setProgress 35 "Installing Node.js dependencies..."]
  let mainR := installDependencies pm env.configStoreOk env.installMain
  let acts3 := acts2 ++ mainR.2
  if env.cancel2 then
    (acts3 ++ [Act.checkpoint true, logInfo "Task was cancelled after dependency installation"], true)
  else
    let acts4 := acts3 ++ [Act.checkpoint false]
    if ¬ mainR.1.success ∧ pm ≠ PM.npm then
      let acts5 := acts4 ++
        [logInfo (pmStr pm ++ " failed, trying npm as fallback..."),
         Act.setProgress 37 (pmStr pm ++ " failed, trying npm fallback...")]
      let fbR := installDependencies PM.npm env.configStoreOk env.installFb
      (acts5 ++ fbR.2 ++ (if ¬ fbR.1.success then [installWarning] else []), false)
    else if ¬ mainR.1.success then
      (acts4 ++ [installWarning], false)
    else (acts4, false)

/-- The Python install section of `createSandbox` (requirements.txt
found): best-effort pip bootstrap and `pip install -r`; every failure is
logged and tolerated. -/
def pythonInstallPhase (env : SbEnv) : List Act :=
  let acts0 := [logInfo "requirements.txt found, installing Python dependencies...",
                Act.setProgress 35 "Installing Python dependencies..."]
  let pipActs : List Act :=
    if ¬ env.pipAvailable then
      [logInfo "pip not found, installing pip..."] ++
        (if ¬ env.getPipOk then
           [logInfo "Failed to install pip, trying alternative method..."] ++
             (if ¬ env.aptOk then
                [logInfo "Warning: Could not install pip, skipping Python dependencies"]
              else [logInfo "pip installed via apt-get"])
         else []) ++
        [logInfo "pip installed successfully"]
    else
      [logInfo "pip is available"] ++
        (if ¬ env.pipUpgradeOk then [logInfo "Warning: Failed to upgrade pip, continuing anyway"]
         else [logInfo "pip upgraded successfully"])
  let instActs : List Act :=
    if ¬ env.pipInstall.success then
      [logInfo "pip install failed",
       logInfo ("pip exit code: " ++ toString env.pipInstall.exitCode)] ++
        (if strTruthy env.pipInstall.output then
           [logInfo ("pip stdout: " ++ optStr env.pipInstall.output)]
         else []) ++
        (if strTruthy env.pipInstall.error then
           [logInfo ("pip stderr: " ++ optStr env.pipInstall.error)]
         else []) ++
        [logInfo "Warning: Failed to install Python dependencies, but continuing with sandbox setup"]
    else [logInfo "Python dependencies installed successfully"]
  acts0 ++ pipActs ++ instActs

/-- The project-readiness logs after the install section. -/
def readinessActs (env : SbEnv) : List Act :=
  if env.packageJson then
    [logInfo "Node.js project detected, sandbox ready for development",
     logInfo ("Sandbox available at: " ++ env.domain)]
  else if env.requirementsTxt then
    [logInfo "Python project detected, sandbox ready for development",
     logInfo ("Sandbox available at: " ++ env.domain)] ++
      (if env.flaskApp then [logInfo "Flask app.py detected, you can run: python3 app.py"]
       else if env.djangoManage then
         [logInfo "Django manage.py detected, you can run: python3 manage.py runserver"]
       else [])
  else
    [logInfo "Project type not detected, sandbox ready for general development",
     logInfo ("Sandbox available at: " ++ env.domain)]

/-- The `errorResponse` logging of the provisioning catch block
(`HTTP Status: ...` / `Response: ...` when the error carried a response). -/
def provisionHttpLogs (o : Option (Int × String)) : List Act :=
  match o with
  | some (st, dataJson) => [logErr ("HTTP Status: " ++ toString st), logErr ("Response: " ++ dataJson)]
  | none => []

def cancelledResult : SandboxResult :=
  { success := false, cancelled := true, domain := none, branchName := none, error := none }

def failedResult (m : String) : SandboxResult :=
  { success := false, cancelled := false, domain := none, branchName := none, error := some m }

/-- Git configuration, repository verification and debug logging of
`createSandbox` (after the readiness logs, before branch resolution). -/
def gitConfigPhase (env : SbEnv) : List Act × Option SandboxResult :=
  if env.cancel3 then
    ([Act.checkpoint true, logInfo "Task was cancelled before Git configuration"],
      some cancelledResult)
  else
    let acts0 := [Act.checkpoint false, Act.gitRun "config user.name", Act.gitRun "config user.email",
                  Act.gitRun "rev-parse --git-dir"]
    let repoActs : List Act × Option SandboxResult :=
      if ¬ env.gitRepo then
        if ¬ env.gitInitOk then
          ([logInfo "Not in a Git repository, initializing...", Act.gitRun "init",
            logErr "Error: Failed to initialize Git repository"],
            some (failedResult "Failed to initialize Git repository"))
        else
          ([logInfo "Not in a Git repository, initializing...", Act.gitRun "init",
            logInfo "Git repository initialized"], none)
      else ([logInfo "Git repository detected"], none)
    match repoActs with
    | (as0, some r) => (acts0 ++ as0, some r)
    | (as0, none) =>
        let dbg := [logInfo "Debugging Git repository state...",
          Act.gitRun "status --porcelain",
          logInfo ("Git status (porcelain): " ++ jsOr env.statusDebug.output "Clean working directory"),
          Act.gitRun "branch -a",
          logInfo ("Available branches: " ++ jsOr env.branchDebug.output "No branches listed"),
          Act.gitRun "remote -v",
          logInfo ("Git remotes: " ++
            (if strTruthy env.remoteDebug.output then
              redactSensitiveInfo env.secrets (optStr env.remoteDebug.output)
             else "No remotes configured"))] ++
          (match env.githubToken with
           | some _ => [logInfo "Configuring Git authentication with GitHub token",
                        Act.gitRun "config credential.helper store"]
           | none => [])
        (acts0 ++ as0 ++ dbg, none)

/-- Branch resolution of `createSandbox`: (1) resume an existing branch;
(2) use the pre-determined (AI) name, checking out local, then remote,
else creating it; (3) synthesize a timestamp+suffix fallback name and
create it.  Returns `Sum.inr` with the resolved name or `Sum.inl` with
the failure result of the corresponding throw. -/
def branchPhase (cfg : SbConfig) (env : SbEnv) : List Act × (SandboxResult ⊕ String) :=
  match cfg.existingBranchName with
  | some ex =>
      let acts0 := [logInfo ("Checking out existing branch: " ++ ex)] ++
        creationRunAndLog env.secrets ("git checkout " ++ ex) env.branch.checkoutExisting
      if ¬ env.branch.checkoutExisting.success then
        let m := "Failed to checkout existing branch " ++ ex
        (acts0 ++ [logErr ("Error: " ++ m)], Sum.inl (failedResult m))
      else
        let acts1 := acts0 ++ [logInfo "Pulling latest changes from remote..."] ++
          creationRunAndLog env.secrets ("git pull origin " ++ ex) env.branch.pullRes ++
          (if strTruthy env.branch.pullRes.output then
             [logInfo ("Git pull output: " ++ optStr env.branch.pullRes.output)]
           else [])
        (acts1, Sum.inr ex)
  | none =>
    match cfg.preDeterminedBranchName with
    | some pd =>
        let acts0 := [logInfo ("Using pre-determined branch name: " ++ pd),
                      Act.gitRun ("show-ref refs/heads/" ++ pd)]
        if env.branch.showRefLocal.success then
          let acts1 := acts0 ++
            [logInfo ("Branch " ++ pd ++ " already exists locally, checking it out")] ++
            creationRunAndLog env.secrets ("git checkout " ++ pd) env.branch.checkoutLocal
          if ¬ env.branch.checkoutLocal.success then
            let m := "Failed to checkout Git branch " ++ pd
            (acts1 ++ [logInfo ("Failed to checkout existing branch " ++ pd ++ ": " ++
                optStr env.branch.checkoutLocal.error), logErr ("Error: " ++ m)],
              Sum.inl (failedResult m))
          else (acts1, Sum.inr pd)
        else
          let acts1 := acts0 ++ [Act.gitRun ("ls-remote --heads origin " ++ pd)]
          if env.branch.lsRemote.success ∧ outputNonblank env.branch.lsRemote then
            let acts2 := acts1 ++
              [logInfo ("Branch " ++ pd ++ " exists on remote, checking it out")] ++
              creationRunAndLog env.secrets ("git checkout -b " ++ pd ++ " origin/" ++ pd)
                env.branch.checkoutTrack
            if ¬ env.branch.checkoutTrack.success then
              let m := "Failed to checkout remote Git branch " ++ pd
              (acts2 ++ [logInfo ("Failed to checkout remote branch " ++ pd ++ ": " ++
                  optStr env.branch.checkoutTrack.error), logErr ("Error: " ++ m)],
                Sum.inl (failedResult m))
            else (acts2, Sum.inr pd)
          else
            let acts2 := acts1 ++ [logInfo ("Creating new branch: " ++ pd)] ++
              creationRunAndLog env.secrets ("git checkout -b " ++ pd) env.branch.createBranch
            if ¬ env.branch.createBranch.success then
              let m := "Failed to create Git branch " ++ pd
              (acts2 ++
                [logInfo ("Failed to create branch " ++ pd ++ ": " ++
                   optStr env.branch.createBranch.error),
                 Act.gitRun "status",
                 logInfo ("Git status: " ++ jsOr env.branch.statusDbg.output "No output"),
                 Act.gitRun "branch -a",
                 logInfo ("Git branches: " ++ jsOr env.branch.branchDbg.output "No output"),
                 logErr ("Error: " ++ m)],
                Sum.inl (failedResult m))
            else
              (acts2 ++ [logInfo ("Successfully created branch: " ++ pd)], Sum.inr pd)
    | none =>
        let bn := env.branch.fallbackName
        let acts0 := [logInfo ("No predetermined branch name, using timestamp-based: " ++ bn)] ++
          creationRunAndLog env.secrets ("git checkout -b " ++ bn) env.branch.createFallback
        if ¬ env.branch.createFallback.success then
          let m := "Failed to create Git branch " ++ bn
          (acts0 ++
            [logInfo ("Failed to create branch " ++ bn ++ ": " ++
               optStr env.branch.createFallback.error),
             Act.gitRun "status",
             logInfo ("Git status: " ++ jsOr env.branch.statusDbg.output "No output"),
             Act.gitRun "branch -a",
             logInfo ("Git branches: " ++ jsOr env.branch.branchDbg.output "No output"),
             Act.gitRun "log --oneline -5",
             logInfo ("Recent commits: " ++ jsOr env.branch.logDbg.output "No commits"),
             logErr ("Error: " ++ m)],
            Sum.inl (failedResult m))
        else
          (acts0 ++ [logInfo ("Successfully created fallback branch: " ++ bn)], Sum.inr bn)

/-- `createSandbox`: validation, provisioning request, registration,
install section, readiness logs, git configuration and branch
resolution, with cancellation checkpoints between the stages. -/
def createSandbox (cfg : SbConfig) (env : SbEnv) : List Act × SandboxResult :=
  let acts0 := [logInfo ("Repository URL: " ++ redactSensitiveInfo env.secrets cfg.repoUrl)]
  if env.cancel0 then
    (acts0 ++ [Act.checkpoint true, logInfo "Task was cancelled before sandbox creation"],
      cancelledResult)
  else
  let acts1 := acts0 ++ [Act.checkpoint false, Act.setProgress 20 "Validating environment variables..."]
  if ¬ env.envVarsValid then
    (acts1 ++ [logErr ("Error: " ++ env.envVarsError)], failedResult env.envVarsError)
  else
  let acts3 := acts1 ++ [logInfo "Environment variables validated",
    logInfo "Added GitHub authentication to repository URL",
    logInfo ("Sandbox config: " ++ env.configJson),
    Act.setProgress 25 "Validating configuration...",
    Act.provisionRequest]
  if ¬ env.provisionOk then
    if env.provisionTimeout then
      let m := "Sandbox creation timed out. Try with a smaller repository or fewer dependencies."
      (acts3 ++ [logErr "Sandbox creation timed out after 5 minutes",
        logErr "This usually happens when the repository is large or has many dependencies",
        logErr ("Error: " ++ m)], failedResult m)
    else
      (acts3 ++ [logErr ("Sandbox creation failed: " ++ env.provisionErrorMsg)] ++
        provisionHttpLogs env.provisionHttpStatus ++
        [logErr ("Error: " ++ env.provisionErrorMsg)], failedResult env.provisionErrorMsg)
  else
  let acts4 := acts3 ++ [logInfo "Sandbox created successfully", Act.register cfg.taskId]
  if env.cancel1 then
    (acts4 ++ [Act.checkpoint true, logInfo "Task was cancelled after sandbox creation"],
      cancelledResult)
  else
  let acts6 := acts4 ++ [Act.checkpoint false,
    Act.setProgress 30 "Sandbox created, installing dependencies...",
    (if cfg.installDependencies then logInfo "Detecting project type and installing dependencies..."
     else logInfo "Skipping dependency installation as requested by user")]
  let installSection : List Act × Bool :=
    if cfg.installDependencies then
      if env.packageJson then nodeInstallPhase env
      else if env.requirementsTxt then (pythonInstallPhase env, false)
      else ([logInfo "No package.json or requirements.txt found, skipping dependency installation"],
            false)
    else ([], false)
  let acts7 := acts6 ++ installSection.1
  if installSection.2 then (acts7, cancelledResult)
  else
  let acts8 := acts7 ++ readinessActs env
  match gitConfigPhase env with
  | (gActs, some r) => (acts8 ++ gActs, r)
  | (gActs, none) =>
    match branchPhase cfg env with
    | (bActs, Sum.inl r) => (acts8 ++ gActs ++ bActs, r)
    | (bActs, Sum.inr bn) =>
        (acts8 ++ gActs ++ bActs,
          { success := true, cancelled := false, domain := some env.domain,
            branchName := some bn, error := none })

/-! ## Task orchestrator (src/app/api/tasks route: processTask)

The stop flag lives in the task table; `isTaskStopped` reads it at the
four orchestrator checkpoints, whose results are the `stopped*` inputs.
The agent executor runs behind a per-agent timeout race; its own log
writes are the `agentActs` input and its result (or the timer winning)
is `agentRace`.  Acts of the loser of a lost race are outside the model,
matching the discarded-result semantics of `Promise.race`. -/

inductive AgentRace
  | timedOut
  | finished (r : AgentExecutionResult)

def getAgentTimeoutMinutes (agent : String) : Nat :=
  if agent = "cursor" then 5 else 3

structure ProcEnv where
  taskId : String
  prompt : String
  repoUrl : String
  selectedAgent : String
  installDependencies : Bool
  stopped0 : Bool
  stopped1 : Bool
  stopped2 : Bool
  stopped3 : Bool
  aiBranchName : Option String
  sb : SbEnv
  agentRace : AgentRace
  agentActs : List Act
  push : PushEnv

/-- The `createSandbox` configuration `processTask` builds: the AI name
(when the bounded wait saw one) as the pre-determined branch name, and no
existing branch. -/
def procCfg (env : ProcEnv) : SbConfig :=
  { taskId := env.taskId
    repoUrl := env.repoUrl
    installDependencies := env.installDependencies
    preDeterminedBranchName := env.aiBranchName
    existingBranchName := none }

def processTask (env : ProcEnv) : List Act :=
  let a0 := [Act.setStatus TaskStatus.processing (some "Task created, preparing to start..."),
             Act.setProgress 10 "Initializing task execution..."]
  if env.stopped0 then
    a0 ++ [Act.checkpoint true, logInfo "Task was stopped before execution began"]
  else
  let a1 := a0 ++ [Act.checkpoint false]
  if env.stopped1 then
    a1 ++ [Act.checkpoint true, logInfo "Task was stopped during branch name generation"]
  else
  let a2 := a1 ++ [Act.checkpoint false] ++
    (match env.aiBranchName with
     | some n => [logInfo ("Using AI-generated branch name: " ++ n)]
     | none => [logInfo "AI branch name not ready, will use fallback during sandbox creation"]) ++
    [Act.setProgress 15 "Creating sandbox environment..."]
  let sbr := createSandbox (procCfg env) env.sb
  let a3 := a2 ++ sbr.1
  let res := sbr.2
  if ¬ res.success then
    if res.cancelled then a3 ++ [logInfo "Task was cancelled during sandbox creation"]
    else
      let m := jsOr res.error "Failed to create sandbox"
      a3 ++ [logErr ("Error: " ++ m), Act.setStatus TaskStatus.error (some m)]
  else
  if env.stopped2 then
    a3 ++ [Act.checkpoint true, logInfo "Task was stopped during sandbox creation", Act.shutdownCall]
  else
  let a4 := a3 ++ [Act.checkpoint false,
    Act.dbUpdate res.domain (if env.aiBranchName = none then res.branchName else none)]
  if env.stopped3 then
    a4 ++ [Act.checkpoint true, logInfo "Task was stopped before agent execution"]
  else
  let agentName := env.selectedAgent
  let a5 := a4 ++ [Act.checkpoint false,
    Act.setProgress 50 ("Installing and executing " ++ agentName ++ " agent...")]
  match env.agentRace with
  | AgentRace.timedOut =>
      let m := agentName ++ " agent execution timed out after " ++
        toString (getAgentTimeoutMinutes agentName) ++ " minutes"
      a5 ++ [Act.unregister env.taskId, Act.shutdownCall,
             logInfo "Sandbox shutdown completed after error",
             logErr ("Error: " ++ m), Act.setStatus TaskStatus.error (some m)]
  | AgentRace.finished r =>
    let a6 := a5 ++ env.agentActs
    if r.success then
      let a7 := a6 ++ [logOk (agentName ++ " agent execution completed"),
          logInfo (jsOr r.output "Code changes applied successfully")] ++
        (if strTruthy r.agentResponse then
           [logInfo ("Agent Response: " ++ optStr r.agentResponse)]
         else [])
      let commitMessage := String.mk (env.prompt.data.take 50) ++
        (if 50 < env.prompt.length then "..." else "")
      let pr := pushChangesToBranch (optStr res.branchName) commitMessage env.push
      let a8 := a7 ++ pr.2 ++
        [Act.unregister env.taskId, Act.shutdownCall, logOk "Sandbox shutdown completed"]
      if pr.1.pushFailed then
        a8 ++ [Act.setStatus TaskStatus.error none,
               logErr "Task failed: Unable to push changes to repository",
               Act.unregister env.taskId, Act.shutdownCall,
               logInfo "Sandbox shutdown completed after error",
               logErr "Error: Failed to push changes to repository",
               Act.setStatus TaskStatus.error (some "Failed to push changes to repository")]
      else
        a8 ++ [Act.setStatus TaskStatus.completed none,
               Act.setProgress 100 "Task completed successfully"]
    else
      let m := jsOr r.error "Agent execution failed"
      a6 ++ [logErr (agentName ++ " agent execution failed"),
             Act.unregister env.taskId, Act.shutdownCall,
             logInfo "Sandbox shutdown completed after error",
             logErr ("Error: " ++ m), Act.setStatus TaskStatus.error (some m)]

/-! ## Global task timeout (processTaskWithTimeout)

`duration` is the time `processTask` takes to settle.  The warning timer
set at 4 minutes fires unless the race settles (and clears it) first;
the 5-minute timer, when it wins the race, rejects and the catch writes
the distinct timed-out error status.  `processTask` itself keeps running
detached after a timeout; its acts are those of `processTask` above. -/

def TASK_TIMEOUT_MS : Nat := 5 * 60 * 1000

def WARNING_MS : Nat := 4 * 60 * 1000

structure TimedAct where
  time : Nat
  act : Act
deriving DecidableEq

def processTaskWithTimeout (duration : Nat) : List TimedAct :=
  let settle := min duration TASK_TIMEOUT_MS
  (if WARNING_MS < settle then
     [⟨WARNING_MS,
       logInfo "Task is taking longer than expected (4+ minutes). Will timeout in 1 minute."⟩]
   else []) ++
  (if TASK_TIMEOUT_MS < duration then
     [⟨TASK_TIMEOUT_MS, logErr "Task execution timed out after 5 minutes"⟩,
      ⟨TASK_TIMEOUT_MS, Act.setStatus TaskStatus.error
        (some "Task execution timed out after 5 minutes. The operation took too long to complete.")⟩]
   else [])

/-! ## The branch-name race (POST after-callback vs processTask)

Two producers write the task's `branchName` column: the AI callback of
the POST handler (one unconditional `db.update` with the generated name,
or with `createFallbackBranchName(taskId)` when generation throws) and
`processTask`, which reads the column during its bounded wait
(`waitForBranchName`) and later includes a fallback name in its
`db.update` exactly when that earlier read saw nothing.  The model runs
the two programs under an arbitrary interleaving of atomic db steps. -/

namespace BranchRace

inductive Writer
  | ai
  | orch
deriving DecidableEq

structure WriteEv where
  writer : Writer
  old : Option String
  new : String
deriving DecidableEq

inductive Step
  | aiStep
  | orchStep
deriving DecidableEq

/-- `row` is the persisted `branchName`; `orchPc` the orchestrator's
position (0 = about to read, 1 = read done and about to conditionally
write, 2 = done); `orchSeen` what `waitForBranchName` returned; `aiDone`
whether the callback's single write has happened. -/
structure Config where
  row : Option String
  orchPc : Nat
  orchSeen : Option String
  aiDone : Bool
  writes : List WriteEv
deriving DecidableEq

def init : Config :=
  { row := none, orchPc := 0, orchSeen := none, aiDone := false, writes := [] }

/-- One atomic step.  `aiName` is the name the callback writes (the
generated name, or its fallback when generation threw); `fb` the
fallback name `processTask` persists when its read saw nothing. -/
def step (aiName fb : String) (c : Config) : Step → Config
  | Step.aiStep =>
      if c.aiDone then c
      else { c with row := some aiName, aiDone := true,
                    writes := c.writes ++ [⟨Writer.ai, c.row, aiName⟩] }
  | Step.orchStep =>
      if c.orchPc = 0 then { c with orchSeen := c.row, orchPc := 1 }
      else if c.orchPc = 1 then
        if c.orchSeen = none then
          { c with row := some fb, orchPc := 2,
                   writes := c.writes ++ [⟨Writer.orch, c.row, fb⟩] }
        else { c with orchPc := 2 }
      else c

def run (aiName fb : String) (sched : List Step) (c : Config) : Config :=
  sched.foldl (step aiName fb) c

/-- A write that replaced an already-persisted different name. -/
def isOverwrite (w : WriteEv) : Bool :=
  match w.old with
  | none => false
  | some o => o ≠ w.new

/-! The reachable configurations of the race, used to characterise every
interleaving: the callback wrote first (B/D/G), the orchestrator read
nothing yet (C), the callback wrote between the orchestrator's read and
its conditional write (E/H), or after it (F/I). -/

def configB (ai : String) : Config := ⟨some ai, 0, none, true, [⟨Writer.ai, none, ai⟩]⟩

def configC : Config := ⟨none, 1, none, false, []⟩

def configD (ai : String) : Config := ⟨some ai, 1, some ai, true, [⟨Writer.ai, none, ai⟩]⟩

def configE (ai : String) : Config := ⟨some ai, 1, none, true, [⟨Writer.ai, none, ai⟩]⟩

def configF (fb : String) : Config := ⟨some fb, 2, none, false, [⟨Writer.orch, none, fb⟩]⟩

def configG (ai : String) : Config := ⟨some ai, 2, some ai, true, [⟨Writer.ai, none, ai⟩]⟩

def configH (ai fb : String) : Config :=
  ⟨some fb, 2, none, true, [⟨Writer.ai, none, ai⟩, ⟨Writer.orch, some ai, fb⟩]⟩

def configI (ai fb : String) : Config :=
  ⟨some ai, 2, none, true, [⟨Writer.orch, none, fb⟩, ⟨Writer.ai, some fb, ai⟩]⟩

def Reachable (ai fb : String) (c : Config) : Prop :=
  c = init ∨ c = configB ai ∨ c = configC ∨ c = configD ai ∨ c = configE ai ∨
  c = configF fb ∨ c = configG ai ∨ c = configH ai fb ∨ c = configI ai fb

end BranchRace

/-! ## Trace extractors used by the theorems -/

def logOf : Act → Option LogEntry
  | Act.log e => some e
  | _ => none

def logsOf (acts : List Act) : List LogEntry := acts.filterMap logOf

/-- Does some persisted log entry contain `needle` verbatim? -/
def anyLogContains (acts : List Act) (needle : String) : Bool :=
  (logsOf acts).any (fun e => strContains e.message needle)

def statusOf : Act → Option (TaskStatus × Option String)
  | Act.setStatus s m => some (s, m)
  | _ => none

/-- The status writes of a trace, in order. -/
def statusWrites (acts : List Act) : List (TaskStatus × Option String) :=
  acts.filterMap statusOf

def attemptOf : Act → Option PM
  | Act.installAttempt pm => some pm
  | _ => none

/-- The `installDependencies` invocations recorded in a trace, in order. -/
def installAttempts (acts : List Act) : List PM := acts.filterMap attemptOf

/-- The install attempts occurring strictly after the first attempt with
the preferred manager `pm`. -/
def retriesAfterPreferred (acts : List Act) (pm : PM) : List PM :=
  ((installAttempts acts).dropWhile (fun q => q ≠ pm)).drop 1

/-- The trace suffix strictly after the first checkpoint that observed
the stop flag. -/
def actsAfterStopObserved (tr : List Act) : List Act :=
  (tr.dropWhile (fun a => a ≠ Act.checkpoint true)).drop 1

/-! ## Concrete environments used to instantiate the theorems -/

def okCmd : CommandResult := { success := true, output := none, error := none, exitCode := 0 }

/-- A Claude run in which the CLI succeeds but echoes the secret
`tok_ABCDEF123` (known to the redaction step) on stderr. -/
def secretLeakEnv : ClaudeEnv :=
  { anthropicApiKey := some "sk-k1"
    secrets := ["tok_ABCDEF123", "sk-k1"]
    cliCheck := { success := true, output := some "/usr/bin/claude", error := none, exitCode := 0 }
    versionRes := { success := true, output := some "1.0.0", error := none, exitCode := 0 }
    helpRes := okCmd
    npmInstallClaude := okCmd
    configFileRes := okCmd
    verifyAuthRes := okCmd
    verifyCheck := okCmd
    execRes := { success := true, output := some "done",
                 error := some "auth header tok_ABCDEF123 rejected", exitCode := 0 }
    gitStatusCheck := { success := true, output := some " M README.md", error := none, exitCode := 0 }
    findRes := okCmd
    lsRes := okCmd }

/-- A Claude run whose `git status --porcelain` inspection fails with
exit code 128 while still printing a non-empty status line. -/
def statusFailEnv : ClaudeEnv :=
  { anthropicApiKey := some "sk-k1"
    secrets := []
    cliCheck := { success := true, output := some "/usr/bin/claude", error := none, exitCode := 0 }
    versionRes := okCmd
    helpRes := okCmd
    npmInstallClaude := okCmd
    configFileRes := okCmd
    verifyAuthRes := okCmd
    verifyCheck := okCmd
    execRes := { success := true, output := some "edited files", error := none, exitCode := 0 }
    gitStatusCheck := { success := false, output := some " M app.ts", error := some "fatal",
                        exitCode := 128 }
    findRes := okCmd
    lsRes := okCmd }

def pushCleanEnv : PushEnv :=
  { statusRes := { success := true, output := some "", error := none, exitCode := 0 }
    addRes := okCmd, commitRes := okCmd, pushRes := okCmd }

/-- A push sequence with a dirty tree whose push is rejected for
permission reasons. -/
def pushPermEnv : PushEnv :=
  { statusRes := { success := true, output := some " M src/app.ts", error := none, exitCode := 0 }
    addRes := okCmd
    commitRes := okCmd
    pushRes := { success := false, output := none,
                 error := some "remote: Permission to o/r.git denied", exitCode := 128 } }

def dummyBranchEnv : BranchEnv :=
  { checkoutExisting := okCmd, pullRes := okCmd, showRefLocal := okCmd, checkoutLocal := okCmd,
    lsRemote := okCmd, checkoutTrack := okCmd, createBranch := okCmd,
    fallbackName := "agent/2025-01-01T00-00-00-ab12", createFallback := okCmd,
    statusDbg := okCmd, branchDbg := okCmd, logDbg := okCmd }

/-- A provisioning environment in which every step succeeds. -/
def dummySbEnv : SbEnv :=
  { cancel0 := false, cancel1 := false, cancel2 := false, cancel3 := false,
    envVarsValid := true, envVarsError := "", githubToken := some "T",
    configJson := "sandbox-config", provisionOk := true, provisionTimeout := false,
    provisionErrorMsg := "", provisionHttpStatus := none, packageJson := true,
    requirementsTxt := false, locks := { pnpmLock := false, yarnLock := false, npmLock := false },
    pmOnPath := true, globalInstallOk := true, configStoreOk := true,
    installPre := InstallRaceOutcome.completed okCmd,
    installMain := InstallRaceOutcome.completed okCmd,
    installFb := InstallRaceOutcome.completed okCmd,
    pipAvailable := true, getPipOk := true, aptOk := true, pipUpgradeOk := true,
    pipInstall := okCmd, flaskApp := false, djangoManage := false,
    domain := "https://sb.example", gitRepo := true, gitInitOk := true,
    statusDebug := okCmd, branchDebug := okCmd, remoteDebug := okCmd,
    branch := dummyBranchEnv, secrets := [] }

/-- pnpm detected, its install attempt fails, the npm fallback succeeds. -/
def pnpmFailSbEnv : SbEnv :=
  { dummySbEnv with
    locks := { pnpmLock := true, yarnLock := false, npmLock := false }
    installMain := InstallRaceOutcome.completed
      { success := false, output := none, error := some "ERR_PNPM", exitCode := 1 } }

/-- pnpm detected and both the pnpm attempt and the npm fallback fail. -/
def pnpmFailAllSbEnv : SbEnv :=
  { pnpmFailSbEnv with
    installFb := InstallRaceOutcome.completed
      { success := false, output := none, error := some "ERR_NPM", exitCode := 1 } }

def dummyAgentResult : AgentExecutionResult :=
  { success := true, output := some "Claude CLI executed successfully (Changes detected)",
    agentResponse := some "done", cliName := some "claude", changesDetected := true,
    error := none }

/-- A task stopped before its first checkpoint. -/
def stoppedEnv : ProcEnv :=
  { taskId := "t1", prompt := "fix the typo", repoUrl := "https://github.com/o/r",
    selectedAgent := "claude", installDependencies := false,
    stopped0 := true, stopped1 := false, stopped2 := false, stopped3 := false,
    aiBranchName := none, sb := dummySbEnv,
    agentRace := AgentRace.finished dummyAgentResult, agentActs := [], push := pushCleanEnv }

/-- A successful run up to a push rejected for permission reasons. -/
def pushFailProcEnv : ProcEnv :=
  { taskId := "t2", prompt := "fix the typo", repoUrl := "https://github.com/o/r",
    selectedAgent := "claude", installDependencies := false,
    stopped0 := false, stopped1 := false, stopped2 := false, stopped3 := false,
    aiBranchName := none, sb := dummySbEnv,
    agentRace := AgentRace.finished dummyAgentResult, agentActs := [], push := pushPermEnv }

/-! # Lemmas

General facts about the trace extractors and the embedded phases, shared
by the claim theorems below. -/

theorem snd_ite {A B : Type} (c : Prop) [Decidable c] (a b : A × B) :
    (if c then a else b).2 = if c then a.2 else b.2 := by
  split <;> rfl

theorem fst_ite {A B : Type} (c : Prop) [Decidable c] (a b : A × B) :
    (if c then a else b).1 = if c then a.1 else b.1 := by
  split <;> rfl

theorem statusWrites_append (a b : List Act) :
    statusWrites (a ++ b) = statusWrites a ++ statusWrites b := by
  simp [statusWrites]

theorem statusWrites_nil : statusWrites [] = [] := rfl

theorem statusWrites_cons (a : Act) (l : List Act) (h : statusOf a = none) :
    statusWrites (a :: l) = statusWrites l := by
  simp [statusWrites, h]

theorem statusWrites_cons_status (s : TaskStatus) (m : Option String) (l : List Act) :
    statusWrites (Act.setStatus s m :: l) = (s, m) :: statusWrites l := by
  simp [statusWrites, statusOf]

theorem statusWrites_ite (c : Prop) [Decidable c] (a b : List Act) :
    statusWrites (if c then a else b) = if c then statusWrites a else statusWrites b := by
  split <;> rfl

theorem statusOf_log (e : LogEntry) : statusOf (Act.log e) = none := rfl

theorem statusOf_progress (p : Nat) (m : String) : statusOf (Act.setProgress p m) = none := rfl

theorem statusOf_checkpoint (b : Bool) : statusOf (Act.checkpoint b) = none := rfl

theorem statusOf_register (t : String) : statusOf (Act.register t) = none := rfl

theorem statusOf_unregister (t : String) : statusOf (Act.unregister t) = none := rfl

theorem statusOf_provision : statusOf Act.provisionRequest = none := rfl

theorem statusOf_installAttempt (pm : PM) : statusOf (Act.installAttempt pm) = none := rfl

theorem statusOf_gitRun (c : String) : statusOf (Act.gitRun c) = none := rfl

theorem statusOf_shutdown : statusOf Act.shutdownCall = none := rfl

theorem statusOf_dbUpdate (u b : Option String) : statusOf (Act.dbUpdate u b) = none := rfl

theorem statusWrites_creationRunAndLog (s : List String) (c : String) (r : CommandResult) :
    statusWrites (creationRunAndLog s c r) = [] := by
  simp only [creationRunAndLog]
  split_ifs <;>
    simp [statusWrites_append, statusWrites_cons, statusWrites_nil, statusOf_log,
      statusOf_gitRun, logCmd, logInfo, logErr, statusWrites, statusOf]

theorem statusWrites_detect (fs : LockFiles) :
    statusWrites (detectPackageManager fs).2 = [] := by
  simp only [detectPackageManager]
  split_ifs <;> simp [statusWrites, statusOf, logInfo]

theorem statusWrites_install (pm : PM) (c : Bool) (race : InstallRaceOutcome) :
    statusWrites (installDependencies pm c race).2 = [] := by
  cases race <;> cases pm <;>
    simp [installDependencies, snd_ite, statusWrites_ite, statusWrites_append,
      statusWrites_cons, statusWrites_nil, statusOf_log, statusOf_installAttempt,
      logInfo, logErr]

theorem statusWrites_nodeInstall (env : SbEnv) :
    statusWrites (nodeInstallPhase env).1 = [] := by
  rcases hpm : (detectPackageManager env.locks).1 with _ | _ | _ <;>
    by_cases hp : env.pmOnPath = true <;>
    by_cases hg : env.globalInstallOk = true <;>
    by_cases hc : env.cancel2 = true <;>
    simp_all [nodeInstallPhase, fst_ite, statusWrites_append, statusWrites_ite,
      statusWrites_cons, statusWrites_nil, statusWrites_detect, statusWrites_install,
      statusOf_log, statusOf_progress, statusOf_checkpoint, logInfo, logErr, installWarning]

theorem statusWrites_pythonInstall (env : SbEnv) :
    statusWrites (pythonInstallPhase env) = [] := by
  simp only [pythonInstallPhase]
  split_ifs <;>
    simp [statusWrites_append, statusWrites_cons, statusWrites_nil, statusOf_log,
      statusOf_progress, logInfo]

theorem statusWrites_readiness (env : SbEnv) :
    statusWrites (readinessActs env) = [] := by
  simp only [readinessActs]
  split_ifs <;>
    simp [statusWrites_append, statusWrites_cons, statusWrites_nil, statusOf_log, logInfo]

set_option maxHeartbeats 1000000 in
theorem statusWrites_gitConfig (env : SbEnv) :
    statusWrites (gitConfigPhase env).1 = [] := by
  by_cases h3 : env.cancel3 = true <;>
  by_cases hg : env.gitRepo = true <;>
  by_cases hi : env.gitInitOk = true <;>
  rcases ht : env.githubToken with _ | t <;>
  simp [gitConfigPhase, h3, hg, hi, ht, statusWrites_append, statusWrites_cons,
    statusWrites_nil, statusOf_log, statusOf_checkpoint, statusOf_gitRun, logInfo, logErr]

set_option maxHeartbeats 1000000 in
theorem statusWrites_branchPhase (cfg : SbConfig) (env : SbEnv) :
    statusWrites (branchPhase cfg env).1 = [] := by
  rcases hex : cfg.existingBranchName with _ | ex <;>
  rcases hpd : cfg.preDeterminedBranchName with _ | pd <;>
  simp only [branchPhase, hex, hpd] <;>
  split_ifs <;>
  simp [statusWrites_append, statusWrites_creationRunAndLog, statusWrites_cons,
    statusWrites_nil, statusOf_log, statusOf_gitRun, logInfo, logErr]

theorem statusWrites_provisionHttpLogs (o : Option (Int × String)) :
    statusWrites (provisionHttpLogs o) = [] := by
  rcases o with _ | ⟨st, d⟩ <;> simp [provisionHttpLogs, statusWrites, statusOf, logErr]

set_option maxHeartbeats 2000000 in
theorem statusWrites_createSandbox (cfg : SbConfig) (env : SbEnv) :
    statusWrites (createSandbox cfg env).1 = [] := by
  rcases hx : gitConfigPhase env with ⟨gActs, gres⟩
  rcases hb : branchPhase cfg env with ⟨bActs, bres⟩
  have hg : statusWrites gActs = [] := by
    have h2 := statusWrites_gitConfig env
    rw [hx] at h2
    exact h2
  have hbr : statusWrites bActs = [] := by
    have h2 := statusWrites_branchPhase cfg env
    rw [hb] at h2
    exact h2
  rcases gres with _ | r <;> rcases bres with r2 | bn <;>
    simp only [createSandbox] <;>
    split_ifs <;>
    simp [hx, hb, fst_ite, statusWrites_append, statusWrites_ite, statusWrites_cons,
      statusWrites_nil, statusWrites_nodeInstall, statusWrites_pythonInstall,
      statusWrites_readiness, statusWrites_provisionHttpLogs, statusOf_log,
      statusOf_progress, statusOf_checkpoint, statusOf_register, statusOf_provision,
      logInfo, logErr, hg, hbr]

theorem statusWrites_push (b m : String) (env : PushEnv) :
    statusWrites (pushChangesToBranch b m env).2 = [] := by
  simp only [pushChangesToBranch]
  split_ifs <;>
    simp [statusWrites_append, statusWrites_cons, statusWrites_nil, statusOf_log,
      statusOf_gitRun, logInfo]

theorem installAttempts_append (a b : List Act) :
    installAttempts (a ++ b) = installAttempts a ++ installAttempts b := by
  simp [installAttempts]

theorem installAttempts_nil : installAttempts [] = [] := rfl

theorem installAttempts_cons_log (e : LogEntry) (l : List Act) :
    installAttempts (Act.log e :: l) = installAttempts l := by
  simp [installAttempts, attemptOf]

theorem installAttempts_cons_progress (p : Nat) (m : String) (l : List Act) :
    installAttempts (Act.setProgress p m :: l) = installAttempts l := by
  simp [installAttempts, attemptOf]

theorem installAttempts_cons_checkpoint (b : Bool) (l : List Act) :
    installAttempts (Act.checkpoint b :: l) = installAttempts l := by
  simp [installAttempts, attemptOf]

theorem installAttempts_detect (fs : LockFiles) :
    installAttempts (detectPackageManager fs).2 = [] := by
  simp only [detectPackageManager]
  split_ifs <;> simp [installAttempts, attemptOf, logInfo]

theorem installAttempts_install (pm : PM) (c : Bool) (race : InstallRaceOutcome) :
    installAttempts (installDependencies pm c race).2 = [pm] := by
  cases race with
  | timedOut =>
      cases pm <;>
        simp [installDependencies, installAttempts, attemptOf, logInfo, logErr] <;>
        split_ifs <;> simp [attemptOf]
  | completed r =>
      cases pm <;>
        simp [installDependencies, installAttempts, attemptOf, logInfo, logErr] <;>
        split_ifs <;> simp [attemptOf]

set_option maxHeartbeats 1000000 in
theorem nodeInstallPhase_attempts (env : SbEnv) (hc : env.cancel2 = false) :
    installAttempts (nodeInstallPhase env).1 =
      (if ((detectPackageManager env.locks).1 = PM.pnpm ∨
            (detectPackageManager env.locks).1 = PM.yarn) ∧
          ¬ env.pmOnPath ∧ ¬ env.globalInstallOk then [PM.npm] else []) ++
      [(detectPackageManager env.locks).1] ++
      (if ¬ (installDependencies (detectPackageManager env.locks).1 env.configStoreOk
               env.installMain).1.success ∧
          (detectPackageManager env.locks).1 ≠ PM.npm then [PM.npm] else []) := by
  rcases hpm : (detectPackageManager env.locks).1 with _ | _ | _ <;>
    by_cases hp : env.pmOnPath = true <;>
    by_cases hg : env.globalInstallOk = true <;>
    by_cases hm : (installDependencies (detectPackageManager env.locks).1 env.configStoreOk
        env.installMain).1.success = true <;>
    simp_all [nodeInstallPhase, installAttempts_append, installAttempts_detect,
      installAttempts_install, installAttempts_nil, installAttempts_cons_log,
      installAttempts_cons_progress, installAttempts_cons_checkpoint,
      logInfo, logErr, installWarning] <;>
    split_ifs <;>
    simp_all [installAttempts_append, installAttempts_install, installAttempts_nil,
      installAttempts_cons_log, installAttempts_cons_progress, installAttempts_cons_checkpoint]

theorem nodeInstallPhase_cancelled (e : SbEnv) : (nodeInstallPhase e).2 = e.cancel2 := by
  rcases hpm : (detectPackageManager e.locks).1 with _ | _ | _ <;>
    by_cases hc : e.cancel2 = true <;>
    simp [nodeInstallPhase, hpm, hc] <;> split_ifs <;> rfl

set_option maxHeartbeats 2000000 in
theorem createSandbox_install_indep (cfg : SbConfig) (env : SbEnv)
    (pre main fb : InstallRaceOutcome) :
    (createSandbox cfg { env with installPre := pre, installMain := main, installFb := fb }).2 =
    (createSandbox cfg env).2 := by
  have hgit : gitConfigPhase { env with installPre := pre, installMain := main, installFb := fb } =
      gitConfigPhase env := rfl
  have hbr : branchPhase cfg { env with installPre := pre, installMain := main, installFb := fb } =
      branchPhase cfg env := rfl
  have hnode : ∀ e : SbEnv, (nodeInstallPhase e).2 = e.cancel2 := nodeInstallPhase_cancelled
  generalize henv : ({ env with installPre := pre, installMain := main, installFb := fb } : SbEnv) = env'
  rw [henv] at hgit hbr
  have e0 : env'.cancel0 = env.cancel0 := by rw [← henv]
  have e1 : env'.envVarsValid = env.envVarsValid := by rw [← henv]
  have e2 : env'.envVarsError = env.envVarsError := by rw [← henv]
  have e3 : env'.provisionOk = env.provisionOk := by rw [← henv]
  have e4 : env'.provisionTimeout = env.provisionTimeout := by rw [← henv]
  have e5 : env'.provisionErrorMsg = env.provisionErrorMsg := by rw [← henv]
  have e6 : env'.cancel1 = env.cancel1 := by rw [← henv]
  have e7 : env'.cancel2 = env.cancel2 := by rw [← henv]
  have e8 : env'.packageJson = env.packageJson := by rw [← henv]
  have e9 : env'.requirementsTxt = env.requirementsTxt := by rw [← henv]
  have e10 : env'.domain = env.domain := by rw [← henv]
  rcases hx : gitConfigPhase env with ⟨gActs, gres⟩
  rcases hb : branchPhase cfg env with ⟨bActs, bres⟩
  by_cases h0 : env.cancel0 = true <;>
  by_cases h1 : env.envVarsValid = true <;>
  by_cases h2 : env.provisionOk = true <;>
  by_cases h4 : env.cancel1 = true <;>
  by_cases h5 : cfg.installDependencies = true <;>
  by_cases h6 : env.packageJson = true <;>
  rcases gres with _ | r <;> rcases bres with r2 | bn <;>
  simp [createSandbox, snd_ite, e0, e1, e2, e3, e4, e5, e6, e7, e8, e9, e10,
    h0, h1, h2, h4, h5, h6, hgit, hbr, hx, hb, hnode]

theorem installDependencies_timeout (pm : PM) (c : Bool) :
    (installDependencies pm c InstallRaceOutcome.timedOut).1 =
      { success := false, error := some (pmStr pm ++ " install timed out after 3 minutes") } ∧
    logErr (pmStr pm ++ " install timed out") ∈
      (installDependencies pm c InstallRaceOutcome.timedOut).2 := by
  cases pm <;> constructor <;>
    simp [installDependencies, pmStr, logErr, logInfo] <;>
    split_ifs <;> simp

set_option maxHeartbeats 1000000 in
theorem nodeInstallPhase_warning (env : SbEnv) (hc : env.cancel2 = false)
    (hm : (installDependencies (detectPackageManager env.locks).1 env.configStoreOk
        env.installMain).1.success = false)
    (hf : (detectPackageManager env.locks).1 = PM.npm ∨
          (installDependencies PM.npm env.configStoreOk env.installFb).1.success = false) :
    installWarning ∈ (nodeInstallPhase env).1 := by
  rcases hpm : (detectPackageManager env.locks).1 with _ | _ | _ <;>
    rcases hf with hf | hf <;>
    simp_all [nodeInstallPhase] <;>
    split_ifs <;> simp_all

set_option maxHeartbeats 1000000 in
theorem processTask_reaches_agent (env : ProcEnv)
    (h0 : env.stopped0 = false) (h1 : env.stopped1 = false) (h2 : env.stopped2 = false)
    (h3 : env.stopped3 = false)
    (hsb : (createSandbox (procCfg env) env.sb).2.success = true) :
    Act.setProgress 50 ("Installing and executing " ++ env.selectedAgent ++ " agent...") ∈
      processTask env := by
  rcases hai : env.aiBranchName with _ | n <;>
    rcases hrace : env.agentRace with _ | r <;>
    simp [processTask, h0, h1, h2, h3, hai, hrace, hsb] <;>
    split_ifs <;> simp

namespace BranchRace

theorem step_reachable (ai fb : String) (c : Config) (h : Reachable ai fb c) (s : Step) :
    Reachable ai fb (step ai fb c s) := by
  rcases h with rfl | rfl | rfl | rfl | rfl | rfl | rfl | rfl | rfl <;> cases s <;>
    simp [step, Reachable, configB, configC, configD, configE, configF, configG,
      configH, configI, init]

theorem run_reachable (ai fb : String) (sched : List Step) :
    Reachable ai fb (run ai fb sched init) := by
  have h : ∀ c, Reachable ai fb c → Reachable ai fb (run ai fb sched c) := by
    induction sched with
    | nil => intro c h; simpa [run] using h
    | cons s rest ih =>
        intro c h
        simpa [run] using ih _ (step_reachable ai fb c h s)
  exact h init (Or.inl rfl)

end BranchRace

/-! # Claim theorems -/

/-- Claim C1, counterexample: in the schedule where the orchestrator's
bounded wait sees no name and it persists the sandbox fallback, a
late-arriving generated name overwrites the already-persisted name —
refuting the write-once, first-writer-wins wording. -/
theorem branch_race_counterexample :
    (BranchRace.run "feat-login-fix" "agent/2025-01-01-ab12"
        [BranchRace.Step.orchStep, BranchRace.Step.orchStep, BranchRace.Step.aiStep]
        BranchRace.init).writes =
      [⟨BranchRace.Writer.orch, none, "agent/2025-01-01-ab12"⟩,
       ⟨BranchRace.Writer.ai, some "agent/2025-01-01-ab12", "feat-login-fix"⟩] ∧
    (BranchRace.run "feat-login-fix" "agent/2025-01-01-ab12"
        [BranchRace.Step.orchStep, BranchRace.Step.orchStep, BranchRace.Step.aiStep]
        BranchRace.init).row = some "feat-login-fix" ∧
    ((BranchRace.run "feat-login-fix" "agent/2025-01-01-ab12"
        [BranchRace.Step.orchStep, BranchRace.Step.orchStep, BranchRace.Step.aiStep]
        BranchRace.init).writes.any BranchRace.isOverwrite) = true := by
  refine ⟨?_, ?_, ?_⟩ <;> decide

/-- Claim C1, amended: under every interleaving, (1) the persisted branch
name is the last write (last-writer-wins, not first-writer-wins); (2) if
the generation service's write landed before the orchestrator's bounded
wait read it, that name is used and the orchestrator generates no second
name; (3) if the read saw nothing, the orchestrator persists exactly one
fallback name — but a late-arriving generated name then overwrites it,
because the callback's write is unconditional. -/
theorem branch_race_amended (aiName fb : String) (sched : List BranchRace.Step) :
    ((BranchRace.run aiName fb sched BranchRace.init).row =
       ((BranchRace.run aiName fb sched BranchRace.init).writes.getLast?).map
         (fun w => w.new)) ∧
    (∀ n, (BranchRace.run aiName fb sched BranchRace.init).orchSeen = some n →
       n = aiName ∧
       ((BranchRace.run aiName fb sched BranchRace.init).writes.filter
          (fun w => w.writer = BranchRace.Writer.orch)) = []) ∧
    ((BranchRace.run aiName fb sched BranchRace.init).orchPc = 2 →
       (BranchRace.run aiName fb sched BranchRace.init).orchSeen = none →
       (((BranchRace.run aiName fb sched BranchRace.init).writes.filter
           (fun w => w.writer = BranchRace.Writer.orch)).map (fun w => w.new)) = [fb]) := by
  rcases BranchRace.run_reachable aiName fb sched with h | h | h | h | h | h | h | h | h <;>
    rw [h] <;>
    simp [BranchRace.init, BranchRace.configB, BranchRace.configC, BranchRace.configD,
      BranchRace.configE, BranchRace.configF, BranchRace.configG, BranchRace.configH,
      BranchRace.configI, List.filter, List.getLast?]

theorem branch_race_amended_witness :
    ("gen-name" : String) = "gen-name" ∧
    ((BranchRace.run "gen-name" "fb-name"
        [BranchRace.Step.aiStep, BranchRace.Step.orchStep, BranchRace.Step.orchStep]
        BranchRace.init).writes.filter
      (fun w => w.writer = BranchRace.Writer.orch)) = [] :=
  (branch_race_amended "gen-name" "fb-name"
    [BranchRace.Step.aiStep, BranchRace.Step.orchStep, BranchRace.Step.orchStep]).2.1
    "gen-name" (by decide)

set_option maxRecDepth 40000 in
/-- Claim C2 (code bug): a Claude run whose CLI invocation succeeds but
writes the known secret `tok_ABCDEF123` to stderr persists the secret
verbatim: the debug block logs `Claude CLI error: <raw stderr>` without
the redaction step applied to the same value a few lines earlier. -/
theorem secret_redaction_violation :
    anyLogContains (executeClaudeInSandbox secretLeakEnv "run the deploy script" none).2
      "tok_ABCDEF123" = true ∧
    logErr "Claude CLI error: auth header tok_ABCDEF123 rejected" ∈
      (executeClaudeInSandbox secretLeakEnv "run the deploy script" none).2 := by
  constructor <;> decide

set_option maxHeartbeats 2000000 in
/-- Claim C3: when the agent run succeeds and the push fails for
permission reasons, the git publisher returns success together with
pushFailed, and the orchestrator's trace ends with status error while the
push-failure reason is a persisted log entry. -/
theorem push_failure_maps_to_error (env : ProcEnv) (r : AgentExecutionResult) (d bn : String)
    (h0 : env.stopped0 = false) (h1 : env.stopped1 = false) (h2 : env.stopped2 = false)
    (h3 : env.stopped3 = false)
    (hsb : (createSandbox (procCfg env) env.sb).2 =
      { success := true, cancelled := false, domain := some d, branchName := some bn,
        error := none })
    (hrace : env.agentRace = AgentRace.finished r) (hr : r.success = true)
    (hag : statusWrites env.agentActs = [])
    (hstatus : outputNonblank env.push.statusRes = true)
    (hadd : env.push.addRes.success = true) (hcommit : env.push.commitRes.success = true)
    (hpush : env.push.pushRes.success = false)
    (hperm : strContains (jsOr env.push.pushRes.error "Unknown error") "Permission" = true) :
    (∀ m, (pushChangesToBranch bn m env.push).1 = { success := true, pushFailed := true }) ∧
    statusWrites (processTask env) =
      [(TaskStatus.processing, some "Task created, preparing to start..."),
       (TaskStatus.error, none),
       (TaskStatus.error, some "Failed to push changes to repository")] ∧
    logInfo ("Failed to push to branch " ++ bn ++ ": " ++
        jsOr env.push.pushRes.error "Unknown error") ∈ processTask env := by
  have hpr : ∀ m, pushChangesToBranch bn m env.push =
      ({ success := true, pushFailed := true },
       [Act.gitRun "status --porcelain", logInfo "Changes detected, committing...",
        Act.gitRun "add .", Act.gitRun ("commit -m " ++ m),
        logInfo "Changes committed successfully", Act.gitRun ("push origin " ++ bn),
        logInfo ("Failed to push to branch " ++ bn ++ ": " ++
          jsOr env.push.pushRes.error "Unknown error"),
        logInfo "Note: This appears to be a permission issue. The changes were committed locally but could not be pushed.",
        logInfo "You may need to check repository permissions or authentication tokens."]) := by
    intro m
    simp [pushChangesToBranch, hstatus, hadd, hcommit, hpush, hperm]
  refine ⟨fun m => by rw [hpr m], ?_, ?_⟩
  · rcases hai : env.aiBranchName with _ | n <;>
      simp [processTask, h0, h1, h2, h3, hai, hsb, hrace, hr, hpr, optStr,
        statusWrites_append, statusWrites_cons, statusWrites_cons_status, statusWrites_nil,
        statusWrites_ite, statusWrites_createSandbox, statusWrites_push, hag,
        statusOf_log, statusOf_progress, statusOf_checkpoint, statusOf_unregister,
        statusOf_shutdown, statusOf_dbUpdate, statusOf_gitRun, logInfo, logOk, logErr]
  · rcases hai : env.aiBranchName with _ | n <;>
      simp [processTask, h0, h1, h2, h3, hai, hsb, hrace, hr, hpr, optStr,
        logInfo, logOk, logErr]

set_option maxRecDepth 100000 in
theorem push_failure_maps_to_error_witness :
    statusWrites (processTask pushFailProcEnv) =
      [(TaskStatus.processing, some "Task created, preparing to start..."),
       (TaskStatus.error, none),
       (TaskStatus.error, some "Failed to push changes to repository")] :=
  (push_failure_maps_to_error pushFailProcEnv dummyAgentResult "https://sb.example"
    "agent/2025-01-01T00-00-00-ab12" rfl rfl rfl rfl (by decide) rfl rfl rfl
    (by decide) (by decide) (by decide) (by decide) (by decide)).2.1

/-- Claim C4: when `processTask` takes longer than the 5-minute budget,
the timeout race writes status error with the distinct timed-out message,
and the warning log fires at the 4-minute mark, before the timeout. -/
theorem global_timeout_spec (duration : Nat) (h : TASK_TIMEOUT_MS < duration) :
    processTaskWithTimeout duration =
      [⟨WARNING_MS, logInfo "Task is taking longer than expected (4+ minutes). Will timeout in 1 minute."⟩,
       ⟨TASK_TIMEOUT_MS, logErr "Task execution timed out after 5 minutes"⟩,
       ⟨TASK_TIMEOUT_MS, Act.setStatus TaskStatus.error
         (some "Task execution timed out after 5 minutes. The operation took too long to complete.")⟩] ∧
    WARNING_MS < TASK_TIMEOUT_MS := by
  have hw : WARNING_MS < TASK_TIMEOUT_MS := by norm_num [WARNING_MS, TASK_TIMEOUT_MS]
  have hmin : min duration TASK_TIMEOUT_MS = TASK_TIMEOUT_MS := by
    have := le_of_lt h
    omega
  refine ⟨?_, hw⟩
  simp [processTaskWithTimeout, hmin, h, hw]

theorem global_timeout_spec_witness :
    processTaskWithTimeout 300001 =
      [⟨WARNING_MS, logInfo "Task is taking longer than expected (4+ minutes). Will timeout in 1 minute."⟩,
       ⟨TASK_TIMEOUT_MS, logErr "Task execution timed out after 5 minutes"⟩,
       ⟨TASK_TIMEOUT_MS, Act.setStatus TaskStatus.error
         (some "Task execution timed out after 5 minutes. The operation took too long to complete.")⟩] :=
  (global_timeout_spec 300001 (by norm_num [TASK_TIMEOUT_MS])).1

/-- Claim C5: a stop flag observed at any checkpoint before the
provisioning request (the two orchestrator checkpoints or the
provisioner's first cancellation check) means no registry entry is ever
created, the only status the task path ever writes is the initial
`processing` (so the externally written `stopped` is final and no error
write follows), and nothing after the observation writes a status. -/
theorem stop_before_sandbox_spec (env : ProcEnv)
    (h : env.stopped0 = true ∨ (env.stopped0 = false ∧ env.stopped1 = true) ∨
         (env.stopped0 = false ∧ env.stopped1 = false ∧ env.sb.cancel0 = true)) :
    (∀ t, Act.register t ∉ processTask env) ∧
    statusWrites (processTask env) =
      [(TaskStatus.processing, some "Task created, preparing to start...")] ∧
    statusWrites (actsAfterStopObserved (processTask env)) = [] := by
  rcases h with h0 | ⟨h0, h1⟩ | ⟨h0, h1, hc⟩
  · refine ⟨?_, ?_, ?_⟩
    · intro t
      simp [processTask, h0, logInfo]
    · simp [processTask, h0, statusWrites, statusOf, logInfo]
    · simp [processTask, h0, statusWrites, statusOf, actsAfterStopObserved, logInfo]
  · refine ⟨?_, ?_, ?_⟩
    · intro t
      simp [processTask, h0, h1, logInfo]
    · simp [processTask, h0, h1, statusWrites, statusOf, logInfo]
    · simp [processTask, h0, h1, statusWrites, statusOf, actsAfterStopObserved, logInfo]
  · rcases hai : env.aiBranchName with _ | n
    all_goals refine ⟨?_, ?_, ?_⟩
    all_goals simp [processTask, h0, h1, hai, createSandbox, hc, cancelledResult,
      statusWrites, statusOf, actsAfterStopObserved, logInfo]

theorem stop_before_sandbox_spec_witness :
    (Act.register "t1" ∉ processTask stoppedEnv) ∧
    statusWrites (processTask stoppedEnv) =
      [(TaskStatus.processing, some "Task created, preparing to start...")] :=
  ⟨(stop_before_sandbox_spec stoppedEnv (Or.inl rfl)).1 "t1",
   (stop_before_sandbox_spec stoppedEnv (Or.inl rfl)).2.1⟩

set_option maxRecDepth 40000 in
/-- Claim C6, counterexample: a failed `git status --porcelain`
inspection with non-empty output yields changesDetected = false, refuting
the unconditional "non-empty status output implies changesDetected=true"
direction. -/
theorem changes_detected_counterexample :
    outputNonblank statusFailEnv.gitStatusCheck = true ∧
    (executeClaudeInSandbox statusFailEnv "fix" none).1.changesDetected = false := by
  constructor <;> decide

/-- Claim C6, amended: with a clean working tree the publisher performs
no commit and no push and reports success, and the executor reports
changesDetected = false; non-empty status output implies
changesDetected = true only when the status command also succeeded. -/
theorem clean_tree_amended :
    (∀ b m env, ¬ outputNonblank env.statusRes →
       pushChangesToBranch b m env =
         ({ success := true, pushFailed := false },
          [Act.gitRun "status --porcelain", logInfo "No changes to commit"])) ∧
    (∀ env instr mdl k, env.cliCheck.success = true → env.anthropicApiKey = some k →
       (executeClaudeInSandbox env instr mdl).1.changesDetected =
         (env.gitStatusCheck.success && outputNonblank env.gitStatusCheck)) := by
  constructor
  · intro b m env h
    simp [pushChangesToBranch, h]
  · intro env instr mdl k hc hk
    simp only [executeClaudeInSandbox, hc, hk]
    simp only [Bool.not_eq_true, Bool.true_eq_false, not_true_eq_false, if_false, ite_false]
    split <;> rfl

set_option maxRecDepth 40000 in
theorem clean_tree_amended_witness :
    pushChangesToBranch "agent/b1" "msg" pushCleanEnv =
      ({ success := true, pushFailed := false },
       [Act.gitRun "status --porcelain", logInfo "No changes to commit"]) ∧
    (executeClaudeInSandbox statusFailEnv "fix" none).1.changesDetected =
      (statusFailEnv.gitStatusCheck.success && outputNonblank statusFailEnv.gitStatusCheck) := by
  refine ⟨clean_tree_amended.1 "agent/b1" "msg" pushCleanEnv (by decide), ?_⟩
  exact clean_tree_amended.2 statusFailEnv "fix" none "sk-k1" (by decide) rfl

/-- Claim C7: the package manager is detected by lock-file presence in
the priority order pnpm-lock.yaml, yarn.lock, package-lock.json with npm
as the default, and when the detected manager's install attempt fails and
that manager is not npm, the attempts after the preferred one are exactly
one npm retry, otherwise none. -/
theorem dependency_installer_spec (env : SbEnv) (hc : env.cancel2 = false) :
    ((detectPackageManager env.locks).1 =
       (if env.locks.pnpmLock then PM.pnpm
        else if env.locks.yarnLock then PM.yarn
        else if env.locks.npmLock then PM.npm
        else PM.npm)) ∧
    (retriesAfterPreferred (nodeInstallPhase env).1 (detectPackageManager env.locks).1 =
       if ¬ (installDependencies (detectPackageManager env.locks).1 env.configStoreOk
               env.installMain).1.success ∧
          (detectPackageManager env.locks).1 ≠ PM.npm
       then [PM.npm] else []) := by
  constructor
  · simp only [detectPackageManager]
    split_ifs <;> rfl
  · rw [retriesAfterPreferred, nodeInstallPhase_attempts env hc]
    rcases hpm : (detectPackageManager env.locks).1 with _ | _ | _ <;>
      split_ifs <;> simp_all [List.dropWhile]

set_option maxRecDepth 100000 in
theorem dependency_installer_spec_witness :
    retriesAfterPreferred (nodeInstallPhase pnpmFailSbEnv).1
      (detectPackageManager pnpmFailSbEnv.locks).1 = [PM.npm] := by
  have h := (dependency_installer_spec pnpmFailSbEnv rfl).2
  rw [h]
  decide

/-- Claim C8: the 3-minute install timeout is a typed outcome distinct
from ordinary failure with differentiated logging; the provisioner's
result does not depend on any install outcome; an ultimate install
failure logs the non-fatal warning; and whenever the sandbox result is a
success and no stop was observed, the orchestrator reaches the
agent-execution step — so an install failure never prevents it. -/
theorem install_best_effort_spec :
    (∀ pm c, (installDependencies pm c InstallRaceOutcome.timedOut).1 =
        { success := false, error := some (pmStr pm ++ " install timed out after 3 minutes") } ∧
      logErr (pmStr pm ++ " install timed out") ∈
        (installDependencies pm c InstallRaceOutcome.timedOut).2) ∧
    (∀ cfg env pre main fb,
       (createSandbox cfg { env with installPre := pre, installMain := main, installFb := fb }).2 =
       (createSandbox cfg env).2) ∧
    (∀ env : SbEnv, env.cancel2 = false →
       (installDependencies (detectPackageManager env.locks).1 env.configStoreOk
          env.installMain).1.success = false →
       ((detectPackageManager env.locks).1 = PM.npm ∨
        (installDependencies PM.npm env.configStoreOk env.installFb).1.success = false) →
       installWarning ∈ (nodeInstallPhase env).1) ∧
    (∀ env : ProcEnv, env.stopped0 = false → env.stopped1 = false → env.stopped2 = false →
       env.stopped3 = false → (createSandbox (procCfg env) env.sb).2.success = true →
       Act.setProgress 50 ("Installing and executing " ++ env.selectedAgent ++ " agent...") ∈
         processTask env) :=
  ⟨installDependencies_timeout, createSandbox_install_indep, nodeInstallPhase_warning,
   processTask_reaches_agent⟩

set_option maxRecDepth 100000 in
theorem install_best_effort_spec_witness :
    (installDependencies PM.pnpm true InstallRaceOutcome.timedOut).1 =
      { success := false, error := some (pmStr PM.pnpm ++ " install timed out after 3 minutes") } ∧
    installWarning ∈ (nodeInstallPhase pnpmFailAllSbEnv).1 ∧
    Act.setProgress 50 ("Installing and executing " ++ pushFailProcEnv.selectedAgent ++
      " agent...") ∈ processTask pushFailProcEnv := by
  refine ⟨(install_best_effort_spec.1 PM.pnpm true).1, ?_, ?_⟩
  · exact install_best_effort_spec.2.2.1 pnpmFailAllSbEnv rfl (by decide) (Or.inr (by decide))
  · exact install_best_effort_spec.2.2.2 pushFailProcEnv rfl rfl rfl rfl (by decide)

/-- Claim C9: killSandbox removes and reports success for an existing
entry; with no entry for the id but a non-empty registry it removes the
oldest (first-inserted) entry and reports success; with an empty registry
it reports failure. -/
theorem kill_sandbox_spec (r : Registry) (taskId : String)
    (hn : (r.map Prod.fst).Nodup) :
    (∀ sb, lookupSandbox r taskId = some sb →
       killSandbox r taskId =
         { success := true, error := none, registry := unregisterSandbox r taskId }) ∧
    (lookupSandbox r taskId = none → r ≠ [] →
       (killSandbox r taskId).success = true ∧ (killSandbox r taskId).registry = r.tail) ∧
    (r = [] → (killSandbox r taskId).success = false ∧ (killSandbox r taskId).registry = []) := by
  refine ⟨?_, ?_, ?_⟩
  · intro sb hsb
    rcases hf : r.find? (fun p => p.1 = taskId) with _ | p
    · simp [lookupSandbox, hf] at hsb
    · simp [killSandbox, hf, unregisterSandbox]
  · intro hl hne
    rcases r with _ | ⟨hd, tl⟩
    · exact absurd rfl hne
    have hf : List.find? (fun p => decide (p.1 = taskId)) (hd :: tl) = none := by
      rcases hf2 : List.find? (fun p => decide (p.1 = taskId)) (hd :: tl) with _ | p
      · exact hf2
      · simp [lookupSandbox, hf2] at hl
    rw [List.map_cons] at hn
    have hmem : hd.1 ∉ tl.map Prod.fst := (List.nodup_cons.mp hn).1
    simp [killSandbox, hf, List.filter_cons]
    intro a b hab hcontra
    exact hmem (hcontra ▸ List.mem_map_of_mem Prod.fst hab)
  · rintro rfl
    simp [killSandbox, List.find?]

theorem kill_sandbox_spec_witness :
    killSandbox [("a", 1), ("b", 2)] "b" =
      { success := true, error := none, registry := unregisterSandbox [("a", 1), ("b", 2)] "b" } ∧
    (killSandbox [("a", 1), ("b", 2)] "nope").success = true ∧
    (killSandbox [("a", 1), ("b", 2)] "nope").registry = [("b", 2)] ∧
    (killSandbox ([] : Registry) "x").success = false := by
  refine ⟨(kill_sandbox_spec [("a", 1), ("b", 2)] "b" (by decide)).1 2 (by decide), ?_, ?_, ?_⟩
  · exact ((kill_sandbox_spec [("a", 1), ("b", 2)] "nope" (by decide)).2.1 (by decide) (by decide)).1
  · exact ((kill_sandbox_spec [("a", 1), ("b", 2)] "nope" (by decide)).2.1 (by decide) (by decide)).2
  · exact ((kill_sandbox_spec ([] : Registry) "x" (by decide)).2.2 rfl).1

/-- Claim C10, counterexample: with a token configured and a parseable
non-GitHub URL, the function returns the re-serialised URL — here with a
trailing slash added — not the input unchanged. -/
theorem authenticated_url_counterexample :
    createAuthenticatedRepoUrl (some "tok") "https://gitlab.com" = "https://gitlab.com/" ∧
    createAuthenticatedRepoUrl (some "tok") "https://gitlab.com" ≠ "https://gitlab.com" := by
  constructor <;> decide

/-- Claim C10, amended: credentials are injected exactly when a token is
configured, the URL parses, and the host is github.com; a missing token
or an unparseable URL returns the input unchanged; a parsed non-GitHub
URL is returned re-serialised (without credentials), which may differ
from the input string. -/
theorem authenticated_url_amended (tok : Option String) (repoUrl : String) :
    (tok = none → createAuthenticatedRepoUrl tok repoUrl = repoUrl) ∧
    (parseUrl repoUrl = none → createAuthenticatedRepoUrl tok repoUrl = repoUrl) ∧
    (∀ t u, tok = some t → parseUrl repoUrl = some u → u.host = "github.com" →
       createAuthenticatedRepoUrl tok repoUrl =
         urlToString { u with username := t, password := "x-oauth-basic" }) ∧
    (∀ t u, tok = some t → parseUrl repoUrl = some u → u.host ≠ "github.com" →
       createAuthenticatedRepoUrl tok repoUrl = urlToString u) := by
  refine ⟨?_, ?_, ?_, ?_⟩
  · rintro rfl
    rfl
  · intro hp
    cases tok with
    | none => rfl
    | some t => simp [createAuthenticatedRepoUrl, hp]
  · rintro t u rfl hp hh
    simp [createAuthenticatedRepoUrl, hp, hh]
  · rintro t u rfl hp hh
    simp [createAuthenticatedRepoUrl, hp, hh]

theorem authenticated_url_amended_witness :
    createAuthenticatedRepoUrl (some "T") "https://github.com/o/r.git" =
      urlToString { scheme := "https", username := "T", password := "x-oauth-basic",
                    host := "github.com", path := "/o/r.git" } :=
  (authenticated_url_amended (some "T") "https://github.com/o/r.git").2.2.1 "T"
    ⟨"https", "", "", "github.com", "/o/r.git"⟩ rfl (by decide) (by decide)

end CodingAgent
